import Mathlib

/-!
Verification of the password-protected encrypted configuration store
implemented in `src-tauri/src/config.rs` of the tauri-s3 repository.

The store's own code (envelope construction, metadata gates, error
mapping, file-state handling) is embedded directly.  The external
crates it calls — `pbkdf2` (PBKDF2-HMAC-SHA256), `aes_gcm`
(AES-256-GCM AEAD), `base64`, and Rust's UTF-8 string codec — are
modelled as abstract primitive functions collected in `CryptoPrims`;
theorems that depend on their behaviour take the corresponding
functional property (round-trip, output length) as an explicit
hypothesis, discharged in witnesses by concrete instances.
-/

namespace TauriS3

/-- Byte sequences (Rust `Vec<u8>` / `&[u8]`); each byte a natural number. -/
abbrev Bytes := List Nat

/-- Abstract interface to the external crates used by `config.rs`:
`pbkdf2 password salt iterations` is PBKDF2-HMAC-SHA256 writing a
32-byte key, `aeadEncrypt key nonce plaintext` / `aeadDecrypt key nonce
ciphertext` are AES-256-GCM (`decrypt` returns `none` on authentication
failure), `b64encode`/`b64decode` are the standard base64 engine (the
base64 text itself modelled as a byte sequence), and
`utf8Encode`/`utf8Decode` are `String::into_bytes` /
`str::from_utf8`. -/
structure CryptoPrims where
  pbkdf2 : Bytes → Bytes → Nat → Bytes
  aeadEncrypt : Bytes → Bytes → Bytes → Bytes
  aeadDecrypt : Bytes → Bytes → Bytes → Option Bytes
  b64encode : Bytes → Bytes
  b64decode : Bytes → Option Bytes
  utf8Encode : String → Bytes
  utf8Decode : Bytes → Option String

/-- The error enum `ConfigError` of `config.rs`.  `Io` and
`Serialization` carry source errors in Rust that no logic inspects;
`Encryption` and `Decryption` carry their message strings. -/
inductive ConfigError
  | Io
  | Serialization
  | Encryption (msg : String)
  | Decryption (msg : String)
  | InvalidPassword
  | ConfigNotFound
  deriving DecidableEq

/-- Result of a store operation: Rust `Ok`, Rust `Err`, or a panic
(`Nonce::from_slice` panics on a wrong-length slice). -/
inductive Outcome (α : Type)
  | ok (a : α)
  | err (e : ConfigError)
  | panicked
  deriving DecidableEq

/-- The struct `EncryptedConfig` after deserialization: every field
present (defaults already substituted by serde). -/
structure EncryptedConfig where
  data : Bytes
  salt : Bytes
  nonce : Bytes
  version : String
  algorithm : String
  iterations : Nat
  deriving DecidableEq

/-- The on-disk envelope JSON as read, before serde's
`#[serde(default)]` substitution: `data`, `salt` and `nonce` are
required fields, `version`, `algorithm` and `iterations` may be
absent.  The base64-text fields are modelled as byte sequences. -/
structure RawEnvelope where
  data : Bytes
  salt : Bytes
  nonce : Bytes
  version : Option String
  algorithm : Option String
  iterations : Option Nat
  deriving DecidableEq

/-- Serde default for `version` (fn `default_version`). -/
def default_version : String := "1.0"

/-- Serde default for `algorithm` (fn `default_algorithm`). -/
def default_algorithm : String := "AES-256-GCM"

/-- Serde default for `iterations` (fn `default_iterations`). -/
def default_iterations : Nat := 100000

/-- Deserialization of a structurally valid envelope JSON into
`EncryptedConfig`, applying the `#[serde(default = ...)]` attributes
of the struct declaration for any absent optional field. -/
def parseEnvelope (r : RawEnvelope) : EncryptedConfig :=
  { data := r.data
    salt := r.salt
    nonce := r.nonce
    version := r.version.getD default_version
    algorithm := r.algorithm.getD default_algorithm
    iterations := r.iterations.getD default_iterations }

/-- Observable content of the config path: no file, a file that does
not deserialize as an envelope (invalid JSON or a missing required
field — serde fails with a `Serialization` error), or a well-formed
envelope. -/
inductive FileState
  | absent
  | malformed
  | envelope (r : RawEnvelope)
  deriving DecidableEq

/-- Constant `ENCRYPTION_VERSION` of `config.rs`. -/
def ENCRYPTION_VERSION : String := "1.0"

/-- Constant `ENCRYPTION_ALGORITHM` of `config.rs`. -/
def ENCRYPTION_ALGORITHM : String := "AES-256-GCM"

/-- Constant `PBKDF2_ITERATIONS` of `config.rs`. -/
def PBKDF2_ITERATIONS : Nat := 100000

/-- The `SecureString` wrapper: an owned byte buffer. -/
structure SecureString where
  data : Bytes
  deriving DecidableEq

/-- `SecureString::new`: takes a `String` and keeps its UTF-8 bytes. -/
def SecureString.new (P : CryptoPrims) (s : String) : SecureString :=
  ⟨P.utf8Encode s⟩

/-- `SecureString::from_bytes`. -/
def SecureString.from_bytes (b : Bytes) : SecureString := ⟨b⟩

/-- `SecureString::as_bytes`. -/
def SecureString.as_bytes (s : SecureString) : Bytes := s.data

/-- `SecureString::as_str`: UTF-8 re-validation of the wrapped bytes
(`str::from_utf8`), `none` on invalid UTF-8. -/
def SecureString.as_str (P : CryptoPrims) (s : SecureString) : Option String :=
  P.utf8Decode s.data

/-- The `Debug` implementation for `SecureString`: it formats the
fixed text `SecureString([REDACTED])` and never reads `self.data`. -/
def SecureString.debugFmt (_ : SecureString) : String :=
  "SecureString([REDACTED])"

/-- `ConfigManager::derive_key`.  `SaltString::encode_b64` fails when
the unpadded base64 of the salt exceeds 64 characters, i.e. when the
salt is longer than 48 bytes (mapped to `Encryption`); the PBKDF2 call
itself is infallible and uses the module constant `PBKDF2_ITERATIONS`
as the work factor. -/
def derive_key (P : CryptoPrims) (password : SecureString) (salt : Bytes) :
    Outcome Bytes :=
  if 48 < salt.length then
    .err (.Encryption "Salt encoding error")
  else
    .ok (P.pbkdf2 password.as_bytes salt PBKDF2_ITERATIONS)

/-- The version/algorithm compatibility gate of `load_config` (the two
metadata `if` checks): `some e` means the load returns `Err e`. -/
def versionAlgGateErr (e : EncryptedConfig) : Option ConfigError :=
  if e.version ≠ ENCRYPTION_VERSION then
    some (.Decryption ("Unsupported encryption version: " ++ e.version))
  else if e.algorithm ≠ ENCRYPTION_ALGORITHM then
    some (.Decryption ("Unsupported encryption algorithm: " ++ e.algorithm))
  else
    none

/-- `ConfigManager::save_config`.  The random salt and nonce produced
by `generate_secure_salt` / `generate_secure_nonce` (`[u8; 32]` and
`[u8; 12]` filled from `OsRng`) enter as parameters.
`Aes256Gcm::new_from_slice` fails unless the key slice has length 32;
`Nonce::from_slice` panics unless the slice has length 12.  On success
the serialized envelope — every field written — replaces the file. -/
def save_config (P : CryptoPrims) (config_json password : String)
    (salt nonce_bytes : Bytes) : Outcome FileState :=
  let secure_password := SecureString.new P password
  let secure_config := SecureString.new P config_json
  match derive_key P secure_password salt with
  | .err e => .err e
  | .panicked => .panicked
  | .ok key =>
    if key.length ≠ 32 then
      .err (.Encryption "Cipher creation error")
    else if nonce_bytes.length ≠ 12 then
      .panicked
    else
      let encrypted_data := P.aeadEncrypt key nonce_bytes secure_config.as_bytes
      .ok (.envelope
        { data := P.b64encode encrypted_data
          salt := P.b64encode salt
          nonce := P.b64encode nonce_bytes
          version := some ENCRYPTION_VERSION
          algorithm := some ENCRYPTION_ALGORITHM
          iterations := some PBKDF2_ITERATIONS })

/-- `ConfigManager::load_config`: missing-file check, deserialization,
version/algorithm gate, three base64 decodes, key derivation (stored
salt, constant iteration count), cipher construction, AEAD
decrypt-and-verify (`InvalidPassword` on failure), UTF-8 decode. -/
def load_config (P : CryptoPrims) (password : String) (st : FileState) :
    Outcome String :=
  let secure_password := SecureString.new P password
  match st with
  | .absent => .err .ConfigNotFound
  | .malformed => .err .Serialization
  | .envelope raw =>
    let encrypted_config := parseEnvelope raw
    match versionAlgGateErr encrypted_config with
    | some e => .err e
    | none =>
      match P.b64decode encrypted_config.data with
      | none => .err (.Decryption "Base64 decode error")
      | some encrypted_data =>
        match P.b64decode encrypted_config.salt with
        | none => .err (.Decryption "Salt decode error")
        | some salt =>
          match P.b64decode encrypted_config.nonce with
          | none => .err (.Decryption "Nonce decode error")
          | some nonce_bytes =>
            match derive_key P secure_password salt with
            | .err e => .err e
            | .panicked => .panicked
            | .ok key =>
              if key.length ≠ 32 then
                .err (.Decryption "Cipher creation error")
              else if nonce_bytes.length ≠ 12 then
                .panicked
              else
                match P.aeadDecrypt key nonce_bytes encrypted_data with
                | none => .err .InvalidPassword
                | some decrypted_data =>
                  match (SecureString.from_bytes decrypted_data).as_str P with
                  | none => .err (.Decryption "UTF-8 conversion error")
                  | some config_json => .ok config_json

/-- Existence check of the config path (`Path::exists`). -/
def fileExists : FileState → Bool
  | .absent => false
  | _ => true

/-- `ConfigManager::config_exists`. -/
def config_exists (st : FileState) : Bool :=
  fileExists (st)

/-- `fs::remove_file`: fails with an I/O error (ENOENT) when the file
does not exist. -/
def fsRemoveFile : FileState → Outcome Unit × FileState
  | .absent => (.err .Io, .absent)
  | _ => (.ok (), .absent)

/-- `ConfigManager::secure_delete_file`: guarded by `path.exists()`;
when the file exists it is overwritten with random bytes, then zero
bytes (content changes that leave the file present and are immediately
followed by removal, so they do not affect the returned state), then
removed; when it does not exist the function is a no-op returning
`Ok(())`. -/
def secure_delete_file (st : FileState) : Outcome Unit × FileState :=
  if fileExists st then
    fsRemoveFile st
  else
    (.ok (), st)

/-- `ConfigManager::delete_config`. -/
def delete_config (st : FileState) : Outcome Unit × FileState :=
  secure_delete_file st

/-- Observable file states at the config path over the course of one
`save_config` call, starting from `prior`.  The single `fs::write`
call opens the file with truncation and then writes the serialized
envelope, so between those two steps a reader observes an empty file,
which does not deserialize as an envelope (`malformed`).  On the error
paths before `fs::write` the file is untouched. -/
def save_config_trace (P : CryptoPrims) (config_json password : String)
    (salt nonce_bytes : Bytes) (prior : FileState) : List FileState :=
  match save_config P config_json password salt nonce_bytes with
  | .ok st => [prior, .malformed, st]
  | _ => [prior]

/-- The derived key a given password and salt produce (the PBKDF2 call
of `derive_key`, with the module-constant work factor). -/
def derivedKeyOf (P : CryptoPrims) (password : String) (salt : Bytes) : Bytes :=
  P.pbkdf2 (P.utf8Encode password) salt PBKDF2_ITERATIONS

/-- The AEAD ciphertext `save_config` produces for the given inputs. -/
def ciphertextOf (P : CryptoPrims) (config_json password : String)
    (salt nonce_bytes : Bytes) : Bytes :=
  P.aeadEncrypt (derivedKeyOf P password salt) nonce_bytes (P.utf8Encode config_json)

/-- The envelope `save_config` writes for the given inputs. -/
def savedEnvelope (P : CryptoPrims) (config_json password : String)
    (salt nonce_bytes : Bytes) : RawEnvelope :=
  { data := P.b64encode (ciphertextOf P config_json password salt nonce_bytes)
    salt := P.b64encode salt
    nonce := P.b64encode nonce_bytes
    version := some ENCRYPTION_VERSION
    algorithm := some ENCRYPTION_ALGORITHM
    iterations := some PBKDF2_ITERATIONS }

/-- A saved envelope whose ciphertext byte at position `i` has been
replaced by `v` (a tampered file). -/
def tamperedEnvelope (P : CryptoPrims) (config_json password : String)
    (salt nonce_bytes : Bytes) (i v : Nat) : RawEnvelope :=
  { savedEnvelope P config_json password salt nonce_bytes with
    data := P.b64encode ((ciphertextOf P config_json password salt nonce_bytes).set i v) }

/-- Whether a load outcome is an `Err` of kind `Decryption`. -/
def Outcome.isDecryption : Outcome String → Bool
  | .err (.Decryption _) => true
  | _ => false

/-! ### Concrete instances of the external primitives

Used only to witness theorems at concrete inputs: an injective
text-to-bytes codec with a verified inverse, an identity base64 pair,
and an AEAD that either round-trips or rejects everything. -/

/-- Toy text encoder: the scalar values of the characters. -/
def toyUtf8Encode (s : String) : Bytes :=
  s.toList.map Char.toNat

/-- Toy text decoder: rebuild characters from scalar values and check
the result re-encodes to the input. -/
def toyUtf8Decode (b : Bytes) : Option String :=
  let s := String.mk (b.map Char.ofNat)
  if toyUtf8Encode s = b then some s else none

theorem toyUtf8_roundtrip (s : String) : toyUtf8Decode (toyUtf8Encode s) = some s := by
  have h : (toyUtf8Encode s).map Char.ofNat = s.toList := by
    simp [toyUtf8Encode, List.map_map, Function.comp_def]
  have hs : String.mk ((toyUtf8Encode s).map Char.ofNat) = s := by
    rw [h]
    cases s
    rfl
  simp [toyUtf8Decode, hs]

/-- Concrete primitives where every codec and the AEAD round-trip. -/
def toyPrims : CryptoPrims where
  pbkdf2 := fun _ _ _ => List.replicate 32 0
  aeadEncrypt := fun _ _ m => m
  aeadDecrypt := fun _ _ c => some c
  b64encode := fun b => b
  b64decode := fun b => some b
  utf8Encode := toyUtf8Encode
  utf8Decode := toyUtf8Decode

/-- Concrete primitives whose AEAD rejects every ciphertext
(authentication always fails). -/
def rejectPrims : CryptoPrims :=
  { toyPrims with aeadDecrypt := fun _ _ _ => none }

/-! ### Claim theorems -/

/-- C9: the `Debug` representation of every `SecureString` is the one
fixed redaction marker, so it contains no byte of the wrapped data and
any two `SecureString` values have identical `Debug` output. -/
theorem c9_debug_redacted :
    (∀ s : SecureString, s.debugFmt = "SecureString([REDACTED])") ∧
    (∀ s t : SecureString, s.debugFmt = t.debugFmt) :=
  ⟨fun _ => rfl, fun _ _ => rfl⟩

/-- C5: when no envelope file exists at the config path, `load_config`
returns `ConfigNotFound` — for every primitive instance and every
password, i.e. before any parsing or decryption can matter — and
`config_exists` returns `false`. -/
theorem c5_missing_file :
    (∀ (P : CryptoPrims) (password : String),
      load_config P password .absent = .err .ConfigNotFound) ∧
    config_exists .absent = false :=
  ⟨fun _ _ => rfl, rfl⟩

/-- C7: `delete_config` is idempotent: with no file present it
succeeds and leaves the state unchanged, and from any state two
successive calls both succeed, the second being a no-op on the
file-free state the first leaves behind. -/
theorem c7_delete_idempotent :
    delete_config .absent = (.ok (), .absent) ∧
    ∀ st : FileState,
      (delete_config st).fst = .ok () ∧
      (delete_config (delete_config st).snd).fst = .ok () ∧
      (delete_config (delete_config st).snd).snd = (delete_config st).snd := by
  refine ⟨rfl, fun st => ?_⟩
  cases st <;> simp [delete_config, secure_delete_file, fileExists, fsRemoveFile]

/-- C2 (divergence witness): `load_config` ignores the envelope's
stored `iterations` field — replacing it by any other value (or by
absence) leaves the result of `load_config` unchanged for every
primitive instance and password, because `derive_key` always uses the
module constant `PBKDF2_ITERATIONS`.  The claim (and the spec) require
the stored value to be replayed. -/
theorem c2_iterations_ignored (P : CryptoPrims) (password : String)
    (r : RawEnvelope) (i : Option Nat) :
    load_config P password (.envelope { r with iterations := i }) =
      load_config P password (.envelope r) := by
  simp only [load_config, parseEnvelope, versionAlgGateErr]

/-- C1: for every payload string and password, `save_config` succeeds
and writes an envelope from which `load_config` with the same password
returns exactly the saved payload.  The hypotheses are the contracts
of the external crates: the salt and nonce have the lengths the
generators produce (`[u8; 32]`, `[u8; 12]`), PBKDF2 yields a 32-byte
key (`[u8; 32]` output buffer), and base64, the AEAD and the UTF-8
codec round-trip. -/
theorem c1_save_load_roundtrip (P : CryptoPrims) (config_json password : String)
    (salt nonce_bytes : Bytes)
    (hsalt : salt.length = 32) (hnonce : nonce_bytes.length = 12)
    (hklen : ∀ p s i, (P.pbkdf2 p s i).length = 32)
    (hb64 : ∀ b, P.b64decode (P.b64encode b) = some b)
    (haead : ∀ k n m, P.aeadDecrypt k n (P.aeadEncrypt k n m) = some m)
    (hutf8 : ∀ s, P.utf8Decode (P.utf8Encode s) = some s) :
    save_config P config_json password salt nonce_bytes =
      .ok (.envelope (savedEnvelope P config_json password salt nonce_bytes)) ∧
    load_config P password
        (.envelope (savedEnvelope P config_json password salt nonce_bytes)) =
      .ok config_json := by
  constructor
  · simp [save_config, derive_key, hsalt, hklen, hnonce, savedEnvelope,
      ciphertextOf, derivedKeyOf, SecureString.new, SecureString.as_bytes]
  · simp [load_config, savedEnvelope, parseEnvelope, versionAlgGateErr,
      hb64, derive_key, hsalt, hklen, hnonce, haead, hutf8, ciphertextOf,
      derivedKeyOf, SecureString.new, SecureString.as_bytes,
      SecureString.from_bytes, SecureString.as_str,
      ENCRYPTION_VERSION, ENCRYPTION_ALGORITHM, default_version, default_algorithm]

/-- A 32-byte salt as `generate_secure_salt` returns. -/
def salt32 : Bytes := List.replicate 32 0

/-- A 12-byte nonce as `generate_secure_nonce` returns. -/
def nonce12 : Bytes := List.replicate 12 0

/-- Witness for C1 at a concrete payload and password. -/
theorem c1_save_load_roundtrip_witness :
    save_config toyPrims "[1]" "pw" salt32 nonce12 =
      .ok (.envelope (savedEnvelope toyPrims "[1]" "pw" salt32 nonce12)) ∧
    load_config toyPrims "pw"
        (.envelope (savedEnvelope toyPrims "[1]" "pw" salt32 nonce12)) =
      .ok "[1]" :=
  c1_save_load_roundtrip toyPrims "[1]" "pw" salt32 nonce12
    (by simp [salt32]) (by simp [nonce12])
    (fun _ _ _ => by simp [toyPrims])
    (fun _ => rfl) (fun _ _ _ => rfl)
    (fun s => toyUtf8_roundtrip s)

/-- C3: whenever the AEAD rejects — which is what a wrong password
(`w2 ≠ w1`, yielding a different derived key) and a tampered
ciphertext (one byte of the stored ciphertext replaced) mean at this
layer — `load_config` fails with the single payload-free error kind
`InvalidPassword`, and the wrong-password result and the tampered-file
result are equal, hence indistinguishable to the caller. -/
theorem c3_auth_failure_indistinguishable (P : CryptoPrims)
    (config_json w1 w2 : String) (salt nonce_bytes : Bytes) (i v : Nat)
    (hw : w1 ≠ w2)
    (hsalt : salt.length = 32) (hnonce : nonce_bytes.length = 12)
    (hklen : ∀ p s it, (P.pbkdf2 p s it).length = 32)
    (hb64 : ∀ b, P.b64decode (P.b64encode b) = some b)
    (htam : (ciphertextOf P config_json w1 salt nonce_bytes).set i v ≠
        ciphertextOf P config_json w1 salt nonce_bytes)
    (hfail_wrong : P.aeadDecrypt (derivedKeyOf P w2 salt) nonce_bytes
        (ciphertextOf P config_json w1 salt nonce_bytes) = none)
    (hfail_tamper : P.aeadDecrypt (derivedKeyOf P w1 salt) nonce_bytes
        ((ciphertextOf P config_json w1 salt nonce_bytes).set i v) = none) :
    save_config P config_json w1 salt nonce_bytes =
      .ok (.envelope (savedEnvelope P config_json w1 salt nonce_bytes)) ∧
    load_config P w2 (.envelope (savedEnvelope P config_json w1 salt nonce_bytes)) =
      .err .InvalidPassword ∧
    load_config P w1
        (.envelope (tamperedEnvelope P config_json w1 salt nonce_bytes i v)) =
      .err .InvalidPassword ∧
    load_config P w2 (.envelope (savedEnvelope P config_json w1 salt nonce_bytes)) =
      load_config P w1
        (.envelope (tamperedEnvelope P config_json w1 salt nonce_bytes i v)) := by
  have h1 : save_config P config_json w1 salt nonce_bytes =
      .ok (.envelope (savedEnvelope P config_json w1 salt nonce_bytes)) := by
    simp [save_config, derive_key, hsalt, hklen, hnonce, savedEnvelope,
      ciphertextOf, derivedKeyOf, SecureString.new, SecureString.as_bytes]
  simp only [derivedKeyOf, ciphertextOf] at hfail_wrong hfail_tamper
  have h2 : load_config P w2
      (.envelope (savedEnvelope P config_json w1 salt nonce_bytes)) =
      .err .InvalidPassword := by
    simp [load_config, savedEnvelope, parseEnvelope, versionAlgGateErr,
      hb64, derive_key, hsalt, hklen, hnonce, hfail_wrong, ciphertextOf,
      derivedKeyOf, SecureString.new, SecureString.as_bytes,
      ENCRYPTION_VERSION, ENCRYPTION_ALGORITHM, default_version, default_algorithm]
  have h3 : load_config P w1
      (.envelope (tamperedEnvelope P config_json w1 salt nonce_bytes i v)) =
      .err .InvalidPassword := by
    simp [load_config, tamperedEnvelope, savedEnvelope, parseEnvelope,
      versionAlgGateErr, hb64, derive_key, hsalt, hklen, hnonce,
      hfail_tamper, ciphertextOf, derivedKeyOf, SecureString.new,
      SecureString.as_bytes,
      ENCRYPTION_VERSION, ENCRYPTION_ALGORITHM, default_version, default_algorithm]
  exact ⟨h1, h2, h3, h2.trans h3.symm⟩

/-- Witness for C3: concrete passwords `a` and `b`, a concrete
payload, and primitives whose AEAD rejects everything. -/
theorem c3_auth_failure_indistinguishable_witness :
    save_config rejectPrims "[2]" "a" salt32 nonce12 =
      .ok (.envelope (savedEnvelope rejectPrims "[2]" "a" salt32 nonce12)) ∧
    load_config rejectPrims "b"
        (.envelope (savedEnvelope rejectPrims "[2]" "a" salt32 nonce12)) =
      .err .InvalidPassword ∧
    load_config rejectPrims "a"
        (.envelope (tamperedEnvelope rejectPrims "[2]" "a" salt32 nonce12 0 66)) =
      .err .InvalidPassword ∧
    load_config rejectPrims "b"
        (.envelope (savedEnvelope rejectPrims "[2]" "a" salt32 nonce12)) =
      load_config rejectPrims "a"
        (.envelope (tamperedEnvelope rejectPrims "[2]" "a" salt32 nonce12 0 66)) :=
  c3_auth_failure_indistinguishable rejectPrims "[2]" "a" "b" salt32 nonce12 0 66
    (by decide)
    (by simp [salt32]) (by simp [nonce12])
    (fun _ _ _ => by simp [rejectPrims, toyPrims])
    (fun _ => rfl)
    (by decide)
    rfl rfl

/-- C6 counterexample: at a concrete input, a successful `save_config`
over the config path passes through an observable intermediate file
state (the truncated file left by `fs::write` before its write step)
that is neither the prior state nor the final envelope, so a
concurrent reader can observe a half-written file: the save is not
write-then-rename atomic. -/
theorem c6_not_atomic_counterexample :
    save_config toyPrims "[1]" "pw" salt32 nonce12 =
      .ok (.envelope (savedEnvelope toyPrims "[1]" "pw" salt32 nonce12)) ∧
    save_config_trace toyPrims "[1]" "pw" salt32 nonce12 .absent =
      [.absent, .malformed,
        .envelope (savedEnvelope toyPrims "[1]" "pw" salt32 nonce12)] ∧
    FileState.malformed ∈ save_config_trace toyPrims "[1]" "pw" salt32 nonce12 .absent ∧
    FileState.malformed ≠ FileState.absent ∧
    FileState.malformed ≠
      FileState.envelope (savedEnvelope toyPrims "[1]" "pw" salt32 nonce12) := by
  have htrace : save_config_trace toyPrims "[1]" "pw" salt32 nonce12 .absent =
      [.absent, .malformed,
        .envelope (savedEnvelope toyPrims "[1]" "pw" salt32 nonce12)] := rfl
  refine ⟨rfl, htrace, ?_, by decide, by simp⟩
  rw [htrace]
  simp

/-- C6 amended: `save_config` replaces the file with a single in-place
`fs::write` (truncate, then write) rather than write-then-rename: on
every successful save the observable file-state sequence is exactly
the prior state, then a truncated file that does not parse as an
envelope, then the complete new envelope — so the final file is the
whole new envelope, but a concurrent reader between the two steps of
the write observes a half-written file. -/
theorem c6_save_truncate_then_write (P : CryptoPrims)
    (config_json password : String) (salt nonce_bytes : Bytes)
    (prior st : FileState)
    (hsave : save_config P config_json password salt nonce_bytes = .ok st) :
    save_config_trace P config_json password salt nonce_bytes prior =
      [prior, .malformed, st] ∧
    (save_config_trace P config_json password salt nonce_bytes prior).getLast? =
      some st ∧
    FileState.malformed ∈ save_config_trace P config_json password salt nonce_bytes prior := by
  simp [save_config_trace, hsave]

/-- Witness for the amended C6 at a concrete input. -/
theorem c6_save_truncate_then_write_witness :
    save_config_trace toyPrims "[3]" "pw" salt32 nonce12 .absent =
      [.absent, .malformed,
        .envelope (savedEnvelope toyPrims "[3]" "pw" salt32 nonce12)] ∧
    (save_config_trace toyPrims "[3]" "pw" salt32 nonce12 .absent).getLast? =
      some (.envelope (savedEnvelope toyPrims "[3]" "pw" salt32 nonce12)) ∧
    FileState.malformed ∈ save_config_trace toyPrims "[3]" "pw" salt32 nonce12 .absent :=
  c6_save_truncate_then_write toyPrims "[3]" "pw" salt32 nonce12 .absent
    (.envelope (savedEnvelope toyPrims "[3]" "pw" salt32 nonce12)) rfl

/-- The metadata gate either passes or produces a `Decryption` error. -/
theorem versionAlgGateErr_cases (e : EncryptedConfig) :
    versionAlgGateErr e = none ∨
    ∃ msg, versionAlgGateErr e = some (.Decryption msg) := by
  unfold versionAlgGateErr
  split_ifs <;> simp

/-- Key derivation either fails with the fixed `Encryption` error or
returns the PBKDF2 key for the module-constant work factor. -/
theorem derive_key_cases (P : CryptoPrims) (pw : SecureString) (salt : Bytes) :
    derive_key P pw salt = .err (.Encryption "Salt encoding error") ∨
    derive_key P pw salt = .ok (P.pbkdf2 pw.as_bytes salt PBKDF2_ITERATIONS) := by
  unfold derive_key
  split_ifs <;> simp

/-- Loading a file that deserializes as an envelope never produces a
`Serialization` error. -/
theorem load_envelope_ne_serialization (P : CryptoPrims) (password : String)
    (r : RawEnvelope) :
    load_config P password (.envelope r) ≠ .err .Serialization := by
  simp only [load_config]
  rcases versionAlgGateErr_cases (parseEnvelope r) with hg | ⟨msg, hg⟩
  · simp only [hg]
    cases hd : P.b64decode (parseEnvelope r).data with
    | none => simp
    | some ed =>
      simp only [hd]
      cases hs : P.b64decode (parseEnvelope r).salt with
      | none => simp
      | some sb =>
        simp only [hs]
        cases hn : P.b64decode (parseEnvelope r).nonce with
        | none => simp
        | some nb =>
          simp only [hn]
          rcases derive_key_cases P (SecureString.new P password) sb with hk | hk <;>
            simp only [hk]
          · simp
          · split_ifs with h1 h2
            · simp
            · simp
            · cases hdec : P.aeadDecrypt
                  (P.pbkdf2 (SecureString.new P password).as_bytes sb PBKDF2_ITERATIONS)
                  nb ed with
              | none => simp [hdec]
              | some m =>
                simp only [hdec]
                cases hu : (SecureString.from_bytes m).as_str P with
                | none => simp [hu]
                | some cj => simp [hu]
  · simp only [hg]
    simp

/-- C10: an envelope JSON missing the `version`, `algorithm`, or
`iterations` field deserializes successfully with the serde defaults
`1.0`, `AES-256-GCM` and `100000`, so it passes the
version/algorithm compatibility gate (no `Serialization` error, gate
returns no error); a field that is present with the expected value
also passes, while a present-but-different `version` or `algorithm`
is rejected with a `Decryption` error. -/
theorem c10_serde_defaults (P : CryptoPrims) (password : String)
    (d s n : Bytes) (v a : String) (i : Nat)
    (hv : v ≠ ENCRYPTION_VERSION) (ha : a ≠ ENCRYPTION_ALGORITHM) :
    parseEnvelope ⟨d, s, n, none, none, none⟩ =
      ⟨d, s, n, "1.0", "AES-256-GCM", 100000⟩ ∧
    versionAlgGateErr (parseEnvelope ⟨d, s, n, none, none, none⟩) = none ∧
    load_config P password (.envelope ⟨d, s, n, none, none, none⟩) ≠
      .err .Serialization ∧
    versionAlgGateErr
        (parseEnvelope ⟨d, s, n, some "1.0", some "AES-256-GCM", some i⟩) = none ∧
    versionAlgGateErr (parseEnvelope ⟨d, s, n, some v, none, none⟩) =
      some (.Decryption ("Unsupported encryption version: " ++ v)) ∧
    versionAlgGateErr (parseEnvelope ⟨d, s, n, some "1.0", some a, none⟩) =
      some (.Decryption ("Unsupported encryption algorithm: " ++ a)) := by
  refine ⟨rfl, by simp [parseEnvelope, versionAlgGateErr, default_version,
      default_algorithm, ENCRYPTION_VERSION, ENCRYPTION_ALGORITHM],
    load_envelope_ne_serialization P password _, by simp [parseEnvelope,
      versionAlgGateErr, ENCRYPTION_VERSION, ENCRYPTION_ALGORITHM],
    by simp [parseEnvelope, versionAlgGateErr, hv, default_algorithm,
      ENCRYPTION_ALGORITHM],
    by simp [parseEnvelope, versionAlgGateErr, ha, ENCRYPTION_VERSION]⟩

/-- Witness for C10 at concrete field values. -/
theorem c10_serde_defaults_witness :
    parseEnvelope ⟨[1], [2], [3], none, none, none⟩ =
      ⟨[1], [2], [3], "1.0", "AES-256-GCM", 100000⟩ ∧
    versionAlgGateErr (parseEnvelope ⟨[1], [2], [3], none, none, none⟩) = none ∧
    load_config toyPrims "pw" (.envelope ⟨[1], [2], [3], none, none, none⟩) ≠
      .err .Serialization ∧
    versionAlgGateErr
        (parseEnvelope ⟨[1], [2], [3], some "1.0", some "AES-256-GCM", some 5⟩) = none ∧
    versionAlgGateErr (parseEnvelope ⟨[1], [2], [3], some "2.0", none, none⟩) =
      some (.Decryption ("Unsupported encryption version: " ++ "2.0")) ∧
    versionAlgGateErr (parseEnvelope ⟨[1], [2], [3], some "1.0", some "AES-128-GCM", none⟩) =
      some (.Decryption ("Unsupported encryption algorithm: " ++ "AES-128-GCM")) :=
  c10_serde_defaults toyPrims "pw" [1] [2] [3] "2.0" "AES-128-GCM" 5
    (by decide) (by decide)

/-- The metadata gate passes exactly when both identifiers match. -/
theorem versionAlgGateErr_none_iff (e : EncryptedConfig) :
    versionAlgGateErr e = none ↔
      (e.version = ENCRYPTION_VERSION ∧ e.algorithm = ENCRYPTION_ALGORITHM) := by
  unfold versionAlgGateErr
  split_ifs <;> simp_all

/-- C4: `load_config` on a deserializable envelope fails with kind
`Decryption` exactly when the (default-completed) `version` or
`algorithm` differs from the supported values, one of the three base64
fields fails to decode, or the AEAD verification succeeds but the
recovered bytes are not valid UTF-8.  The hypothesis is PBKDF2's
contract of filling a 32-byte buffer, which makes the cipher-creation
failure branch unreachable.  In particular an unrecognized `version`
yields `Decryption` for every password, correct or not. -/
theorem c4_decryption_exact_cases (P : CryptoPrims) (password : String)
    (r : RawEnvelope)
    (hklen : ∀ p s i, (P.pbkdf2 p s i).length = 32) :
    (load_config P password (.envelope r)).isDecryption = true ↔
      ((parseEnvelope r).version ≠ ENCRYPTION_VERSION ∨
       (parseEnvelope r).algorithm ≠ ENCRYPTION_ALGORITHM ∨
       P.b64decode (parseEnvelope r).data = none ∨
       P.b64decode (parseEnvelope r).salt = none ∨
       P.b64decode (parseEnvelope r).nonce = none ∨
       ∃ ed sb nb m,
         P.b64decode (parseEnvelope r).data = some ed ∧
         P.b64decode (parseEnvelope r).salt = some sb ∧
         P.b64decode (parseEnvelope r).nonce = some nb ∧
         sb.length ≤ 48 ∧ nb.length = 12 ∧
         P.aeadDecrypt (P.pbkdf2 (P.utf8Encode password) sb PBKDF2_ITERATIONS)
           nb ed = some m ∧
         P.utf8Decode m = none) := by
  by_cases hv : (parseEnvelope r).version = ENCRYPTION_VERSION
  · by_cases ha : (parseEnvelope r).algorithm = ENCRYPTION_ALGORITHM
    · have hg : versionAlgGateErr (parseEnvelope r) = none :=
        (versionAlgGateErr_none_iff _).2 ⟨hv, ha⟩
      simp only [load_config, hg, SecureString.new, SecureString.as_bytes,
        SecureString.from_bytes, SecureString.as_str]
      cases hd : P.b64decode (parseEnvelope r).data with
      | none => simp [Outcome.isDecryption, hv, ha, hd]
      | some ed =>
        simp only [hd]
        cases hs : P.b64decode (parseEnvelope r).salt with
        | none => simp [Outcome.isDecryption, hv, ha, hd, hs]
        | some sb =>
          simp only [hs]
          cases hn : P.b64decode (parseEnvelope r).nonce with
          | none => simp [Outcome.isDecryption, hv, ha, hd, hs, hn]
          | some nb =>
            simp only [hn]
            by_cases hsl : 48 < sb.length
            · have hk : derive_key P ⟨P.utf8Encode password⟩ sb =
                  .err (.Encryption "Salt encoding error") := by
                simp [derive_key, hsl]
              have hsl' : ¬ sb.length ≤ 48 := Nat.not_le.mpr hsl
              simp [Outcome.isDecryption, hv, ha, hd, hs, hn, hk, hsl']
            · have hk : derive_key P ⟨P.utf8Encode password⟩ sb =
                  .ok (P.pbkdf2 (P.utf8Encode password) sb PBKDF2_ITERATIONS) := by
                simp [derive_key, hsl, SecureString.as_bytes]
              have hsl' : sb.length ≤ 48 := Nat.not_lt.mp hsl
              simp only [hk, hklen]
              by_cases hnl : nb.length = 12
              · cases hdec : P.aeadDecrypt
                    (P.pbkdf2 (P.utf8Encode password) sb PBKDF2_ITERATIONS) nb ed with
                | none =>
                  simp [Outcome.isDecryption, hv, ha, hd, hs, hn, hdec, hnl, hsl']
                | some m =>
                  simp only [hdec]
                  cases hu : P.utf8Decode m with
                  | none =>
                    simp [Outcome.isDecryption, hv, ha, hd, hs, hn, hdec, hu, hnl, hsl']
                  | some cj =>
                    simp [Outcome.isDecryption, hv, ha, hd, hs, hn, hdec, hu, hnl, hsl']
              · simp [Outcome.isDecryption, hv, ha, hd, hs, hn, hnl, hsl']
    · have hg : versionAlgGateErr (parseEnvelope r) =
          some (.Decryption ("Unsupported encryption algorithm: " ++
            (parseEnvelope r).algorithm)) := by
        simp [versionAlgGateErr, hv, ha]
      refine iff_of_true ?_ (Or.inr (Or.inl ha))
      simp [load_config, hg, Outcome.isDecryption]
  · have hg : versionAlgGateErr (parseEnvelope r) =
        some (.Decryption ("Unsupported encryption version: " ++
          (parseEnvelope r).version)) := by
      simp [versionAlgGateErr, hv]
    refine iff_of_true ?_ (Or.inl hv)
    simp [load_config, hg, Outcome.isDecryption]

/-- Witness for C4 at a concrete envelope (unrecognized version,
correct-password scenario): the load fails with `Decryption`. -/
theorem c4_decryption_exact_cases_witness :
    (load_config toyPrims "pw"
        (.envelope ⟨[1], [2], [3], some "0.9", none, none⟩)).isDecryption = true ↔
      ((parseEnvelope ⟨[1], [2], [3], some "0.9", none, none⟩).version ≠
          ENCRYPTION_VERSION ∨
       (parseEnvelope ⟨[1], [2], [3], some "0.9", none, none⟩).algorithm ≠
          ENCRYPTION_ALGORITHM ∨
       toyPrims.b64decode (parseEnvelope ⟨[1], [2], [3], some "0.9", none, none⟩).data =
          none ∨
       toyPrims.b64decode (parseEnvelope ⟨[1], [2], [3], some "0.9", none, none⟩).salt =
          none ∨
       toyPrims.b64decode (parseEnvelope ⟨[1], [2], [3], some "0.9", none, none⟩).nonce =
          none ∨
       ∃ ed sb nb m,
         toyPrims.b64decode
             (parseEnvelope ⟨[1], [2], [3], some "0.9", none, none⟩).data = some ed ∧
         toyPrims.b64decode
             (parseEnvelope ⟨[1], [2], [3], some "0.9", none, none⟩).salt = some sb ∧
         toyPrims.b64decode
             (parseEnvelope ⟨[1], [2], [3], some "0.9", none, none⟩).nonce = some nb ∧
         sb.length ≤ 48 ∧ nb.length = 12 ∧
         toyPrims.aeadDecrypt
             (toyPrims.pbkdf2 (toyPrims.utf8Encode "pw") sb PBKDF2_ITERATIONS)
             nb ed = some m ∧
         toyPrims.utf8Decode m = none) :=
  c4_decryption_exact_cases toyPrims "pw" ⟨[1], [2], [3], some "0.9", none, none⟩
    (fun _ _ _ => by simp [toyPrims])

end TauriS3
